import Mathlib

/-!
# Verification of the ENGR-1282 robot firmware (version B5)

A shallow embedding of `src/main.cpp`, a linear blocking command script for
a small wheeled robot, together with proofs of the frozen claims about it.

The embedding has two layers.

* A *numeric* layer over `ℝ`: the pure unit-conversion helpers
  (`calculate_distance`, `deg_to_rads`), and the exit conditions of the
  busy-wait loops, evaluated against an `Env` of sensor streams (encoder
  counts, CdS-cell voltages, and the `TimeNow` clock, each indexed by the
  poll number).  Float values and float literals of the C++ source are
  modelled as rationals (every IEEE float is a rational, so quantifying
  over `ℚ` covers every float input), and float arithmetic as exact
  arithmetic; `M_PI` is modelled as the real `π`, so quantities built from
  it live in `ℝ`.

* A *trace* layer: each procedure of the source is mapped to the list of
  hardware commands it issues, in program order (`List Event`).  A busy-wait
  loop appears in a trace as a single `wait…` event recording the loop's
  parameters; its stopping behaviour is settled in the numeric layer.
  `read_light_color` appears in `main`'s trace as the single event
  `Event.readLight`; its return value is settled in the numeric layer and
  enters `main_events` as the parameter `light_color`.
-/

/-! ## Macro constants (lines 11–20 of the source) -/

/-- `#define LEFT 0` — a left turn in `turn`. -/
def LEFT : ℤ := 0

/-- `#define RIGHT 1` — a right turn in `turn`. -/
def RIGHT : ℤ := 1

/-- `#define REVERSE -1` — motion in reverse. -/
def REVERSE : ℤ := -1

/-- `#define FORWARD 1` — motion forward. -/
def FORWARD : ℤ := 1

/-- `#define COUNTS_PER_REVOLUTION 318` — encoder counts per wheel revolution. -/
def COUNTS_PER_REVOLUTION : ℕ := 318

/-- `#define RADIUS_OF_TURN 4` — turn radius in inches. -/
def RADIUS_OF_TURN : ℝ := 4

/-- `#define COLOR_THRESHOLD 1.7` — CdS threshold separating red from blue. -/
def COLOR_THRESHOLD : ℚ := 1.7

/-! ## Pure helpers (numeric layer) -/

/-- Line 58: `float calculate_distance(int counts)`; returns
`(2 * M_PI * 1.5 * counts) / COUNTS_PER_REVOLUTION`, the distance in inches. -/
noncomputable def calculate_distance (counts : ℤ) : ℝ :=
  (2 * Real.pi * 1.5 * counts) / COUNTS_PER_REVOLUTION

/-- Line 71: `float deg_to_rads(float degrees)`; returns
`degrees * (M_PI / 180.0)`. -/
noncomputable def deg_to_rads (degrees : ℚ) : ℝ :=
  degrees * (Real.pi / 180)

/-! ## Environments and busy-wait loop conditions

The hardware feeds each busy-wait loop a stream of readings; `Env` collects
the streams, each indexed by the number of polls made so far in the current
loop.  `rightCounts`/`leftCounts` are the encoder counts (reset to zero just
before each loop starts), `cds` the CdS-cell voltages, and `clock` the
successive values returned by `TimeNow()` (call number 0 is the read taken
just before the loop). -/

structure Env where
  rightCounts : ℕ → ℕ
  leftCounts : ℕ → ℕ
  cds : ℕ → ℚ
  clock : ℕ → ℚ

/-- `stopsAt cond n`: a `while(cond){}` loop polls its condition repeatedly
and exits at poll `n` exactly when the condition held at every earlier poll
and fails at poll `n`. -/
def stopsAt (cond : ℕ → Prop) (n : ℕ) : Prop :=
  (∀ m < n, cond m) ∧ ¬ cond n

/-- Line 118, the loop condition of `turn`:
`calculate_distance(right_encoder.Counts()) <= RADIUS_OF_TURN * turn_radius_radians`
where `turn_radius_radians = deg_to_rads(angle)`.  Only the right encoder is
consulted. -/
def turnLoopCond (env : Env) (angle : ℚ) (i : ℕ) : Prop :=
  calculate_distance (env.rightCounts i) ≤ RADIUS_OF_TURN * deg_to_rads angle

/-- Line 138, the loop condition of `move`:
`calculate_distance(right) <= distance && calculate_distance(left) <= distance`. -/
def moveLoopCond (env : Env) (distance : ℚ) (i : ℕ) : Prop :=
  calculate_distance (env.rightCounts i) ≤ (distance : ℝ) ∧
  calculate_distance (env.leftCounts i) ≤ (distance : ℝ)

/-- Line 150, the loop condition of `move_failsafe`: the `move` condition
conjoined with `TimeNow() < time + failsafe_duration`, where `time` is
`clock 0` and the `TimeNow()` call of poll `i` is `clock (i+1)`. -/
def moveFailsafeLoopCond (env : Env) (distance failsafe_duration : ℚ) (i : ℕ) : Prop :=
  (calculate_distance (env.rightCounts i) ≤ (distance : ℝ) ∧
   calculate_distance (env.leftCounts i) ≤ (distance : ℝ)) ∧
  env.clock (i + 1) < env.clock 0 + failsafe_duration

/-- Line 167, the loop condition of `move_to_light`:
`read_cds_sensor() > 2.2`. -/
def moveToLightLoopCond (env : Env) (i : ℕ) : Prop :=
  env.cds i > 2.2

/-- Line 182, the sampling loop of `read_light_color`:
`while(TimeNow() < time + 1){ voltage = read_cds_sensor(); }`.
Poll `i` compares `clock (i+1)` against `clock 0 + 1`; when it passes, the
body stores sample `cds i` into `voltage`. -/
def lightSampleLoopCond (env : Env) (i : ℕ) : Prop :=
  env.clock (i + 1) < env.clock 0 + 1

/-- Lines 189–204 of `read_light_color`: given the voltage left in the local
variable by the sampling loop, return `2` (blue) when
`voltage > COLOR_THRESHOLD` and `1` (red) otherwise. -/
def read_light_color_result (voltage : ℚ) : ℤ :=
  if voltage > COLOR_THRESHOLD then 2 else 1

/-! ## The trace layer -/

/-- One hardware command issued by the script.  Numeric parameters are the
exact rational values of the source's float expressions. -/
inductive Event where
  | setLeftPercent (p : ℚ)
  | setRightPercent (p : ℚ)
  | resetLeftCounts
  | resetRightCounts
  | waitMove (distance : ℚ)
  | waitMoveFailsafe (distance failsafe_duration : ℚ)
  | waitTurn (angle : ℚ)
  | waitLight
  | waitStart
  | readLight
  | sleep (t : ℚ)
  | servoSet (angle : ℚ)
  | lcdWrite (s : String)
  | rcsInit
  | rcsGetLever
  deriving DecidableEq, Repr

/-- Line 83: `stop_motors()` sets both motor percents to 0 (left first). -/
def stop_motors_events : List Event :=
  [Event.setLeftPercent 0, Event.setRightPercent 0]

/-- Line 93: `reset_motor_counts()` resets both encoders (right first). -/
def reset_motor_counts_events : List Event :=
  [Event.resetRightCounts, Event.resetLeftCounts]

/-- Lines 105–121: `turn(angle, direction)`.  Direction 0 sets right +40 /
left −40, any other direction sets right −40 / left +40; then the encoders
are reset, the arc-length busy-wait runs, the motors stop, and the robot
sleeps 0.5 s. -/
def turn_events (angle : ℚ) (direction : ℤ) : List Event :=
  (if direction = 0 then
    [Event.setRightPercent 40, Event.setLeftPercent (-40)]
  else
    [Event.setRightPercent (-40), Event.setLeftPercent 40])
  ++ reset_motor_counts_events
  ++ [Event.waitTurn angle]
  ++ stop_motors_events
  ++ [Event.sleep 0.5]

/-- Lines 132–141: `move(distance, direction, speed)` (defaults
`direction = 1`, `speed = 40`). -/
def move_events (distance : ℚ) (direction : ℤ) (speed : ℚ) : List Event :=
  [Event.setRightPercent (speed * direction), Event.setLeftPercent (speed * direction)]
  ++ reset_motor_counts_events
  ++ [Event.waitMove distance]
  ++ stop_motors_events
  ++ [Event.sleep 0.5]

/-- Lines 143–153: `move_failsafe(distance, failsafe_duration, direction, speed)`. -/
def move_failsafe_events (distance failsafe_duration : ℚ) (direction : ℤ) (speed : ℚ) :
    List Event :=
  [Event.setRightPercent (speed * direction), Event.setLeftPercent (speed * direction)]
  ++ reset_motor_counts_events
  ++ [Event.waitMoveFailsafe distance failsafe_duration]
  ++ stop_motors_events
  ++ [Event.sleep 0.5]

/-- Lines 161–170: `move_to_light(direction)`. -/
def move_to_light_events (direction : ℤ) : List Event :=
  [Event.setRightPercent (40 * direction), Event.setLeftPercent (40 * direction)]
  ++ reset_motor_counts_events
  ++ [Event.waitLight]
  ++ stop_motors_events
  ++ [Event.sleep 0.5]

/-- Line 267: `move_servo(angle)` commands the servo to `angle` degrees. -/
def move_servo_events (angle : ℚ) : List Event :=
  [Event.servoSet angle]

/-- Lines 214–238: `navigate_to_switch(switch_id)` — a `switch` on the
lever id with cases 0 (left), 1 (middle), 2 (right) and a default that only
writes to the LCD. -/
def navigate_to_switch_events (switch_id : ℤ) : List Event :=
  if switch_id = 0 then
    [Event.lcdWrite "Left"] ++ move_events 20.25 1 40 ++ turn_events 77 LEFT
      ++ move_events 6.25 1 65
  else if switch_id = 1 then
    [Event.lcdWrite "Middle"] ++ move_events 24 1 40 ++ turn_events 77 LEFT
      ++ move_events 6.25 1 65
  else if switch_id = 2 then
    [Event.lcdWrite "Right"] ++ move_events 28 1 40 ++ turn_events 77 LEFT
      ++ move_events 6.25 1 65
  else
    [Event.lcdWrite "I no no wanna :("]

/-- Lines 307–310, the luggage-drop servo loop:
`for(float i = 180.; i >= 110.; i -= 10){ move_servo(i); Sleep(0.1); }`
modelled as recursion on the loop counter. -/
def servo_sweep (i : ℚ) : List Event :=
  if h : 110 ≤ i then
    Event.servoSet i :: Event.sleep 0.1 :: servo_sweep (i - 10)
  else
    []
termination_by (Int.ceil i).toNat
decreasing_by
  have h10 : Int.ceil ((i : ℚ) - 10) = Int.ceil i - 10 := by
    rw [show (10 : ℚ) = ((10 : ℤ) : ℚ) by norm_num, Int.ceil_sub_int]
  have hge : (110 : ℤ) ≤ Int.ceil i := by
    have h3 := Int.le_ceil (α := ℚ) i
    have h4 : (110 : ℚ) ≤ ((Int.ceil i : ℤ) : ℚ) := le_trans h h3
    exact_mod_cast h4
  omega

/-- Lines 278–284: `init()` clears the LCD and opens the RCS touch menu. -/
def init_events : List Event :=
  [Event.lcdWrite "", Event.rcsInit]

/-- Lines 296–313 of `main`, the `LUGGAGE DROP` section. -/
def luggage_drop_events : List Event :=
  move_failsafe_events 3 0.75 REVERSE 40
  ++ move_events 1 FORWARD 40
  ++ turn_events 40 RIGHT
  ++ move_events 18 FORWARD 40
  ++ turn_events 2.5 LEFT
  ++ move_events 19 FORWARD 40
  ++ turn_events 87 LEFT
  ++ move_events 12.25 FORWARD 40
  ++ turn_events 85 RIGHT
  ++ move_events 1 REVERSE 40
  ++ servo_sweep 180
  ++ move_servo_events 180
  ++ [Event.sleep 0.2]
  ++ move_events 4.5 FORWARD 40

/-- Lines 315–324 of `main`, the `LIGHT READING` section; the call to
`read_light_color` is the event `Event.readLight`. -/
def light_reading_events : List Event :=
  turn_events 87 LEFT
  ++ move_failsafe_events 999 2 FORWARD 40
  ++ move_events 8.75 REVERSE 40
  ++ turn_events 83 RIGHT
  ++ move_to_light_events FORWARD
  ++ [Event.readLight]
  ++ move_events 2 REVERSE 40
  ++ turn_events 80 RIGHT

/-- Lines 329–336 of `main`: the boarding-pass branch taken when
`light_color == 1` (red). -/
def red_branch_events : List Event :=
  move_events 6.25 FORWARD 40
  ++ turn_events 83 LEFT
  ++ move_events 6.5 FORWARD 55
  ++ move_events 7 REVERSE 40
  ++ turn_events 83 LEFT
  ++ move_events 7.5 FORWARD 40

/-- Lines 338–345 of `main`: the boarding-pass branch taken otherwise
(blue). -/
def blue_branch_events : List Event :=
  move_events 9 FORWARD 40
  ++ turn_events 85 LEFT
  ++ move_events 5.5 FORWARD 55
  ++ move_events 7 REVERSE 40
  ++ turn_events 81 LEFT
  ++ move_events 11.5 FORWARD 40

/-- Lines 347–353 of `main`, the `PASSPORT STAMP` section. -/
def passport_stamp_events : List Event :=
  move_servo_events 0
  ++ move_events 6.25 REVERSE 40
  ++ [Event.sleep 1.5]
  ++ move_servo_events 135
  ++ turn_events 40 LEFT
  ++ turn_events 15 RIGHT

/-- Lines 355–386 of `main`, the `FUEL LEVERS` section; `correctLever` is
the value returned by `RCS.GetCorrectLever()`. -/
def fuel_levers_events (correctLever : ℤ) : List Event :=
  move_failsafe_events 999 2.75 FORWARD 40
  ++ move_servo_events 180
  ++ move_events 5 REVERSE 40
  ++ turn_events 81.5 RIGHT
  ++ [Event.rcsGetLever]
  ++ move_events 28.5 REVERSE 40
  ++ (if correctLever = 0 then
        turn_events 83 LEFT ++ move_events 6.5 REVERSE 40 ++ turn_events 83 RIGHT
      else if correctLever = 1 then
        turn_events 83 LEFT ++ move_events 3 REVERSE 40 ++ turn_events 83 RIGHT
          ++ move_events 1 FORWARD 40
      else [])
  ++ move_servo_events 45
  ++ [Event.sleep 0.2]
  ++ move_events 3.5 FORWARD 40
  ++ move_servo_events 0
  ++ [Event.sleep 5]
  ++ move_events 2.75 REVERSE 40
  ++ move_servo_events 60
  ++ [Event.sleep 0.3]

/-- Lines 388–398 of `main`, the `FINAL BUTTON` section. -/
def final_button_events : List Event :=
  move_events 2 FORWARD 40
  ++ move_servo_events 180
  ++ move_events 4 REVERSE 40
  ++ turn_events 83 RIGHT
  ++ move_failsafe_events 999 2.5 FORWARD 40
  ++ move_events 3.5 REVERSE 40
  ++ turn_events 83 RIGHT
  ++ move_events 16 FORWARD 45
  ++ turn_events 45 LEFT
  ++ move_events 4 FORWARD 60

/-- Lines 286–400: `main`.  `light_color` is the value returned by the one
call to `read_light_color` (the event `Event.readLight` inside
`light_reading_events`) and `correctLever` the value returned by
`RCS.GetCorrectLever()`; the trace follows the source's section comments,
with `Event.waitStart` for the initial `while(read_cds_sensor() > 2.0){}`. -/
def main_events (light_color correctLever : ℤ) : List Event :=
  init_events
  ++ [Event.waitStart]
  ++ luggage_drop_events
  ++ light_reading_events
  ++ (if light_color = 1 then red_branch_events else blue_branch_events)
  ++ passport_stamp_events
  ++ fuel_levers_events correctLever
  ++ final_button_events

/-! ## Trace observations -/

/-- Run a list of events over the motor state `(left percent, right percent)`. -/
def motorsAfter (init : ℚ × ℚ) : List Event → ℚ × ℚ
  | [] => init
  | Event.setLeftPercent p :: rest => motorsAfter (p, init.2) rest
  | Event.setRightPercent p :: rest => motorsAfter (init.1, p) rest
  | _ :: rest => motorsAfter init rest

/-- Is this event a busy-wait? -/
def isWaitEvent : Event → Bool
  | Event.waitMove _ => true
  | Event.waitMoveFailsafe _ _ => true
  | Event.waitTurn _ => true
  | Event.waitLight => true
  | Event.waitStart => true
  | _ => false

/-- Is this event the invocation of `read_light_color`? -/
def isReadLightEvent : Event → Bool
  | Event.readLight => true
  | _ => false

/-- Is this event a motor, encoder, or servo command? -/
def isMotionEvent : Event → Bool
  | Event.setLeftPercent _ => true
  | Event.setRightPercent _ => true
  | Event.resetLeftCounts => true
  | Event.resetRightCounts => true
  | Event.servoSet _ => true
  | _ => false

/-- The commands a routine issues before it first starts busy-waiting. -/
def eventsBeforeFirstWait (l : List Event) : List Event :=
  l.takeWhile (fun e => ! isWaitEvent e)

/-! ## Concrete environments used to witness the theorems -/

/-- An environment whose encoders never move and whose clock ticks one
second per poll. -/
def envTick : Env := ⟨fun _ => 0, fun _ => 0, fun _ => 0, fun i => (i : ℚ)⟩

/-- An environment whose clock ticks half a second per poll and whose CdS
cell reads a constant 2.5 V. -/
def envHalfTick : Env := ⟨fun _ => 0, fun _ => 0, fun _ => 5 / 2, fun i => (i : ℚ) / 2⟩

/-! ## Helper lemmas -/

/-- Unfolding lemma for the servo-sweep loop. -/
lemma servo_sweep_step (i : ℚ) :
    servo_sweep i =
      if 110 ≤ i then Event.servoSet i :: Event.sleep 0.1 :: servo_sweep (i - 10)
      else [] := by
  rw [servo_sweep]
  simp

/-- The servo-sweep loop started at 180° issues exactly the eight
servo commands 180°, 170°, …, 110°, each followed by a 0.1 s sleep. -/
lemma servo_sweep_eval : servo_sweep 180 =
    [Event.servoSet 180, Event.sleep 0.1, Event.servoSet 170, Event.sleep 0.1,
     Event.servoSet 160, Event.sleep 0.1, Event.servoSet 150, Event.sleep 0.1,
     Event.servoSet 140, Event.sleep 0.1, Event.servoSet 130, Event.sleep 0.1,
     Event.servoSet 120, Event.sleep 0.1, Event.servoSet 110, Event.sleep 0.1] := by
  rw [servo_sweep_step]; norm_num
  rw [servo_sweep_step]; norm_num
  rw [servo_sweep_step]; norm_num
  rw [servo_sweep_step]; norm_num
  rw [servo_sweep_step]; norm_num
  rw [servo_sweep_step]; norm_num
  rw [servo_sweep_step]; norm_num
  rw [servo_sweep_step]; norm_num
  rw [servo_sweep_step]; norm_num

set_option maxRecDepth 4000 in
/-- `main`'s trace contains exactly one invocation of `read_light_color`,
whatever the light colour and lever id. -/
lemma main_events_countP_readLight (light_color correctLever : ℤ) :
    (main_events light_color correctLever).countP isReadLightEvent = 1 := by
  unfold main_events init_events luggage_drop_events light_reading_events
    red_branch_events blue_branch_events passport_stamp_events fuel_levers_events
    final_button_events
  rw [servo_sweep_eval]
  by_cases hlc : light_color = 1 <;> by_cases h0 : correctLever = 0 <;>
    by_cases h1 : correctLever = 1 <;> simp only [hlc, h0, h1, if_true, if_false,
      reduceIte] <;> rfl

/-! ## The claims -/

/-- C1: for every integer `counts`, `calculate_distance counts` equals the
wheel-radius unit conversion `(2 * π * 1.5 * counts) / 318`, the distance in
inches traveled for that many encoder counts with a 1.5-inch wheel radius
and 318 counts per revolution. -/
theorem C1_calculate_distance (counts : ℤ) :
    calculate_distance counts = (2 * Real.pi * 1.5 * counts) / 318 := by
  unfold calculate_distance COUNTS_PER_REVOLUTION
  norm_num

/-- C2: for every non-negative angle (in degrees) and direction,
`turn(angle, direction)` implements turn-by-arc-length: its busy-wait loop
runs exactly until the distance computed from the right encoder's counts
first strictly exceeds `RADIUS_OF_TURN` (4 inches) times the angle
converted to radians, the commands issued right after the wait set both
motor percents to 0, and the left encoder's counts never affect the
stopping condition (any two environments agreeing on the right encoder
stop identically). -/
theorem C2_turn_arc_length (angle : ℚ) (hangle : 0 ≤ angle) (direction : ℤ)
    (env env' : Env) (hright : env.rightCounts = env'.rightCounts) (n : ℕ) :
    (stopsAt (turnLoopCond env angle) n ↔
      ((∀ m < n, ¬ (4 : ℝ) * deg_to_rads angle < calculate_distance (env.rightCounts m)) ∧
        (4 : ℝ) * deg_to_rads angle < calculate_distance (env.rightCounts n)))
    ∧ (stopsAt (turnLoopCond env angle) n ↔ stopsAt (turnLoopCond env' angle) n)
    ∧ (∃ pre, turn_events angle direction =
        pre ++ [Event.waitTurn angle, Event.setLeftPercent 0, Event.setRightPercent 0,
                Event.sleep 0.5]) := by
  refine ⟨?_, ?_, ?_⟩
  · simp [stopsAt, turnLoopCond, RADIUS_OF_TURN, not_lt, not_le]
  · simp [stopsAt, turnLoopCond, hright]
  · by_cases hd : direction = 0
    · exact ⟨[Event.setRightPercent 40, Event.setLeftPercent (-40), Event.resetRightCounts,
        Event.resetLeftCounts],
        by simp [turn_events, hd, reset_motor_counts_events, stop_motors_events]⟩
    · exact ⟨[Event.setRightPercent (-40), Event.setLeftPercent 40, Event.resetRightCounts,
        Event.resetLeftCounts],
        by simp [turn_events, hd, reset_motor_counts_events, stop_motors_events]⟩

/-- Witness for C2 at `angle = 90`, `direction = 1`, the all-zero
environment `envTick`, and poll 0. -/
theorem C2_turn_arc_length_witness :
    (0 : ℚ) ≤ 90 ∧ envTick.rightCounts = envTick.rightCounts ∧
    ((stopsAt (turnLoopCond envTick 90) 0 ↔
      ((∀ m < 0, ¬ (4 : ℝ) * deg_to_rads 90 < calculate_distance (envTick.rightCounts m)) ∧
        (4 : ℝ) * deg_to_rads 90 < calculate_distance (envTick.rightCounts 0)))
    ∧ (stopsAt (turnLoopCond envTick 90) 0 ↔ stopsAt (turnLoopCond envTick 90) 0)
    ∧ (∃ pre, turn_events 90 1 =
        pre ++ [Event.waitTurn 90, Event.setLeftPercent 0, Event.setRightPercent 0,
                Event.sleep 0.5])) :=
  ⟨by norm_num, rfl, C2_turn_arc_length 90 (by norm_num) 1 envTick envTick rfl 0⟩

/-- C3: `read_light_color` is a sensor threshold read.  When its sampling
loop stops at poll `n ≥ 1`, the voltage it decides on is the last sample
`cds (n-1)`; it returns 2 (blue) exactly when that voltage is strictly
greater than the threshold 1.7 and 1 (red) otherwise, and for every
possible sensor reading the return value is one of exactly 1 and 2. -/
theorem C3_read_light_color (env : Env) (n : ℕ)
    (hstop : stopsAt (lightSampleLoopCond env) n) (hn : 1 ≤ n) :
    (read_light_color_result (env.cds (n - 1)) = 2 ↔ (1.7 : ℚ) < env.cds (n - 1))
    ∧ (read_light_color_result (env.cds (n - 1)) = 1 ↔ env.cds (n - 1) ≤ (1.7 : ℚ))
    ∧ (∀ v : ℚ, read_light_color_result v = 1 ∨ read_light_color_result v = 2) := by
  refine ⟨?_, ?_, ?_⟩
  · unfold read_light_color_result COLOR_THRESHOLD
    split_ifs with h
    · simpa using h
    · simp only [gt_iff_lt, not_lt] at h
      constructor
      · intro hc
        exact absurd hc (by norm_num)
      · intro hc
        exact absurd hc (not_lt.mpr h)
  · unfold read_light_color_result COLOR_THRESHOLD
    split_ifs with h
    · constructor
      · intro hc
        exact absurd hc (by norm_num)
      · intro hc
        exact absurd h (not_lt.mpr hc)
    · simpa using not_lt.mp h
  · intro v
    unfold read_light_color_result
    split_ifs
    · exact Or.inr rfl
    · exact Or.inl rfl

/-- Witness for C3 on `envHalfTick` (clock ticking 0.5 s per poll, constant
2.5 V readings), whose sampling loop stops at poll 1. -/
theorem C3_read_light_color_witness :
    stopsAt (lightSampleLoopCond envHalfTick) 1 ∧ 1 ≤ 1 ∧
    ((read_light_color_result (envHalfTick.cds (1 - 1)) = 2 ↔
        (1.7 : ℚ) < envHalfTick.cds (1 - 1))
    ∧ (read_light_color_result (envHalfTick.cds (1 - 1)) = 1 ↔
        envHalfTick.cds (1 - 1) ≤ (1.7 : ℚ))
    ∧ (∀ v : ℚ, read_light_color_result v = 1 ∨ read_light_color_result v = 2)) := by
  have hstop : stopsAt (lightSampleLoopCond envHalfTick) 1 := by
    constructor
    · intro m hm
      interval_cases m
      norm_num [lightSampleLoopCond, envHalfTick]
    · norm_num [lightSampleLoopCond, envHalfTick]
  exact ⟨hstop, le_refl 1, C3_read_light_color envHalfTick 1 hstop (le_refl 1)⟩

/-- C4: for every distance, failsafe duration, direction and speed, if the
`TimeNow` clock is strictly increasing and unbounded then `move_failsafe`'s
busy-wait loop exits — there is a poll `n` at which it stops — and every
completed poll observed a time strictly before `clock 0 + failsafe_duration`,
whatever the encoders report; the commands issued right after the wait set
both motor percents to 0. -/
theorem C4_move_failsafe_cutoff (env : Env) (distance failsafe_duration : ℚ)
    (direction : ℤ) (speed : ℚ)
    (hmono : StrictMono env.clock) (hunb : ∀ T : ℚ, ∃ i, T < env.clock i) :
    (∃ n, stopsAt (moveFailsafeLoopCond env distance failsafe_duration) n ∧
      ∀ m < n, env.clock (m + 1) < env.clock 0 + failsafe_duration)
    ∧ (∃ pre, move_failsafe_events distance failsafe_duration direction speed =
        pre ++ [Event.waitMoveFailsafe distance failsafe_duration, Event.setLeftPercent 0,
                Event.setRightPercent 0, Event.sleep 0.5]) := by
  constructor
  · have hex : ∃ i, ¬ moveFailsafeLoopCond env distance failsafe_duration i := by
      obtain ⟨j, hj⟩ := hunb (env.clock 0 + failsafe_duration)
      match j with
      | 0 =>
        refine ⟨0, fun hc => ?_⟩
        have h1 : env.clock 1 < env.clock 0 + failsafe_duration := hc.2
        have h2 : env.clock 0 < env.clock 1 := hmono (by norm_num)
        linarith
      | m + 1 =>
        exact ⟨m, fun hc => absurd hc.2 (not_lt.mpr (le_of_lt hj))⟩
    classical
    refine ⟨Nat.find hex, ⟨fun m hm => ?_, Nat.find_spec hex⟩, fun m hm => ?_⟩
    · exact not_not.mp (Nat.find_min hex hm)
    · exact (not_not.mp (Nat.find_min hex hm)).2
  · exact ⟨[Event.setRightPercent (speed * direction),
      Event.setLeftPercent (speed * direction), Event.resetRightCounts,
      Event.resetLeftCounts],
      by simp [move_failsafe_events, reset_motor_counts_events, stop_motors_events]⟩

/-- Witness for C4 on `envTick` (clock ticking one second per poll) with
distance 1, failsafe duration 2, direction 1, speed 40. -/
theorem C4_move_failsafe_cutoff_witness :
    StrictMono envTick.clock ∧ (∀ T : ℚ, ∃ i, T < envTick.clock i) ∧
    ((∃ n, stopsAt (moveFailsafeLoopCond envTick 1 2) n ∧
      ∀ m < n, envTick.clock (m + 1) < envTick.clock 0 + 2)
    ∧ (∃ pre, move_failsafe_events 1 2 1 40 =
        pre ++ [Event.waitMoveFailsafe 1 2, Event.setLeftPercent 0,
                Event.setRightPercent 0, Event.sleep 0.5])) := by
  have hmono : StrictMono envTick.clock := fun a b h => by
    simpa [envTick] using (Nat.cast_lt (α := ℚ)).mpr h
  have hunb : ∀ T : ℚ, ∃ i, T < envTick.clock i := fun T => by
    simpa [envTick] using exists_nat_gt T
  exact ⟨hmono, hunb, C4_move_failsafe_cutoff envTick 1 2 1 40 hmono hunb⟩

/-- C5: for every distance, direction in {1, −1} and speed,
`move(distance, direction, speed)` first sets both motor percents to
`speed * direction`, then resets the encoders and busy-waits exactly until
the distance computed from at least one of the two encoders' counts
strictly exceeds the requested distance, after which both motor percents
are set to 0. -/
theorem C5_move (distance : ℚ) (direction : ℤ) (hdir : direction = 1 ∨ direction = -1)
    (speed : ℚ) (env : Env) (n : ℕ) :
    move_events distance direction speed =
      [Event.setRightPercent (speed * direction), Event.setLeftPercent (speed * direction),
       Event.resetRightCounts, Event.resetLeftCounts, Event.waitMove distance,
       Event.setLeftPercent 0, Event.setRightPercent 0, Event.sleep 0.5]
    ∧ (stopsAt (moveLoopCond env distance) n ↔
        ((∀ m < n, calculate_distance (env.rightCounts m) ≤ (distance : ℝ) ∧
                   calculate_distance (env.leftCounts m) ≤ (distance : ℝ)) ∧
         ((distance : ℝ) < calculate_distance (env.rightCounts n) ∨
          (distance : ℝ) < calculate_distance (env.leftCounts n)))) := by
  constructor
  · simp [move_events, reset_motor_counts_events, stop_motors_events]
  · unfold stopsAt moveLoopCond
    constructor
    · rintro ⟨h1, h2⟩
      refine ⟨h1, ?_⟩
      rcases not_and_or.mp h2 with h | h
      · exact Or.inl (not_le.mp h)
      · exact Or.inr (not_le.mp h)
    · rintro ⟨h1, h2⟩
      refine ⟨h1, ?_⟩
      rintro ⟨ha, hb⟩
      rcases h2 with h | h
      · exact absurd ha (not_le.mpr h)
      · exact absurd hb (not_le.mpr h)

/-- Witness for C5 at distance 3, direction 1, speed 40, the `envTick`
environment, and poll 0. -/
theorem C5_move_witness :
    ((1 : ℤ) = 1 ∨ (1 : ℤ) = -1) ∧
    (move_events 3 1 40 =
      [Event.setRightPercent (40 * 1), Event.setLeftPercent (40 * 1),
       Event.resetRightCounts, Event.resetLeftCounts, Event.waitMove 3,
       Event.setLeftPercent 0, Event.setRightPercent 0, Event.sleep 0.5]
    ∧ (stopsAt (moveLoopCond envTick 3) 0 ↔
        ((∀ m < 0, calculate_distance (envTick.rightCounts m) ≤ ((3 : ℚ) : ℝ) ∧
                   calculate_distance (envTick.leftCounts m) ≤ ((3 : ℚ) : ℝ)) ∧
         (((3 : ℚ) : ℝ) < calculate_distance (envTick.rightCounts 0) ∨
          ((3 : ℚ) : ℝ) < calculate_distance (envTick.leftCounts 0))))) :=
  ⟨Or.inl rfl, C5_move 3 1 (Or.inl rfl) 40 envTick 0⟩

/-- C6: every turn is a pivot turn: at the moment `turn(angle, direction)`
enters its busy-wait loop the two motor percents are equal in magnitude
(40) and opposite in sign — right +40 / left −40 when the direction is 0
(`LEFT`), right −40 / left +40 for every other direction — and the wait
event is indeed part of the turn's trace. -/
theorem C6_turn_pivot (angle : ℚ) (direction : ℤ) (l r : ℚ) :
    motorsAfter (l, r) (eventsBeforeFirstWait (turn_events angle direction)) =
      (if direction = 0 then ((-40 : ℚ), (40 : ℚ)) else (40, -40))
    ∧ (motorsAfter (l, r) (eventsBeforeFirstWait (turn_events angle direction))).1 =
      - (motorsAfter (l, r) (eventsBeforeFirstWait (turn_events angle direction))).2
    ∧ Event.waitTurn angle ∈ turn_events angle direction := by
  by_cases hd : direction = 0 <;>
    simp [turn_events, hd, reset_motor_counts_events, stop_motors_events,
      eventsBeforeFirstWait, isWaitEvent, motorsAfter]

/-- C7: in every complete execution of `main` the light-colour read routine
is invoked exactly once (one `Event.readLight` in the trace), and the value
it returns selects the boarding-pass branch: the trace contains the red
branch when it is 1 and the blue branch otherwise. -/
theorem C7_single_light_read (light_color correctLever : ℤ) :
    (main_events light_color correctLever).countP isReadLightEvent = 1
    ∧ (∃ pre post, main_events light_color correctLever =
        pre ++ Event.readLight :: post)
    ∧ (main_events light_color correctLever =
        (init_events ++ [Event.waitStart] ++ luggage_drop_events ++ light_reading_events)
        ++ (if light_color = 1 then red_branch_events else blue_branch_events)
        ++ (passport_stamp_events ++ fuel_levers_events correctLever
            ++ final_button_events)) := by
  refine ⟨main_events_countP_readLight light_color correctLever, ?_, ?_⟩
  · have hm : Event.readLight ∈ main_events light_color correctLever := by
      simp [main_events, light_reading_events]
    exact List.append_of_mem hm
  · simp [main_events, List.append_assoc]

/-- C8: the servo-arm sweep in `main`'s luggage-drop section commands the
servo, in order, to the strictly decreasing angles 180°, 170°, 160°, 150°,
140°, 130°, 120°, 110°, each followed by a 0.1 s sleep, and then back to
180°. -/
theorem C8_servo_sweep (light_color correctLever : ℤ) :
    ∃ pre post, main_events light_color correctLever =
      pre ++ [Event.servoSet 180, Event.sleep 0.1, Event.servoSet 170, Event.sleep 0.1,
              Event.servoSet 160, Event.sleep 0.1, Event.servoSet 150, Event.sleep 0.1,
              Event.servoSet 140, Event.sleep 0.1, Event.servoSet 130, Event.sleep 0.1,
              Event.servoSet 120, Event.sleep 0.1, Event.servoSet 110, Event.sleep 0.1,
              Event.servoSet 180] ++ post := by
  refine ⟨init_events ++ [Event.waitStart]
    ++ (move_failsafe_events 3 0.75 REVERSE 40 ++ move_events 1 FORWARD 40
      ++ turn_events 40 RIGHT ++ move_events 18 FORWARD 40 ++ turn_events 2.5 LEFT
      ++ move_events 19 FORWARD 40 ++ turn_events 87 LEFT ++ move_events 12.25 FORWARD 40
      ++ turn_events 85 RIGHT ++ move_events 1 REVERSE 40),
    [Event.sleep 0.2] ++ move_events 4.5 FORWARD 40 ++ light_reading_events
      ++ (if light_color = 1 then red_branch_events else blue_branch_events)
      ++ passport_stamp_events ++ fuel_levers_events correctLever
      ++ final_button_events, ?_⟩
  simp [main_events, luggage_drop_events, servo_sweep_eval, move_servo_events,
    List.append_assoc]

/-- C9: every motion routine leaves the robot stopped: running the full
trace of each of `move`, `move_failsafe`, `move_to_light` and `turn` over
any initial motor state ends with both motor percents at 0. -/
theorem C9_motors_stopped (init : ℚ × ℚ) (distance failsafe_duration : ℚ)
    (direction : ℤ) (speed : ℚ) (angle : ℚ) :
    motorsAfter init (move_events distance direction speed) = (0, 0)
    ∧ motorsAfter init (move_failsafe_events distance failsafe_duration direction speed) =
        (0, 0)
    ∧ motorsAfter init (move_to_light_events direction) = (0, 0)
    ∧ motorsAfter init (turn_events angle direction) = (0, 0) := by
  refine ⟨rfl, rfl, rfl, ?_⟩
  by_cases hd : direction = 0 <;>
    simp [turn_events, hd, reset_motor_counts_events, stop_motors_events, motorsAfter]

/-- C10: for every `switch_id` outside {0, 1, 2}, `navigate_to_switch`
performs no motion at all: its trace is exactly one LCD message, it
contains no motor, encoder, or servo command, and running it leaves any
motor state unchanged. -/
theorem C10_navigate_default (switch_id : ℤ)
    (h0 : switch_id ≠ 0) (h1 : switch_id ≠ 1) (h2 : switch_id ≠ 2) :
    navigate_to_switch_events switch_id = [Event.lcdWrite "I no no wanna :("]
    ∧ (navigate_to_switch_events switch_id).countP isMotionEvent = 0
    ∧ ∀ init : ℚ × ℚ, motorsAfter init (navigate_to_switch_events switch_id) = init := by
  have heq : navigate_to_switch_events switch_id = [Event.lcdWrite "I no no wanna :("] := by
    simp [navigate_to_switch_events, h0, h1, h2]
  refine ⟨heq, ?_, ?_⟩
  · rw [heq]
    rfl
  · intro init
    rw [heq]
    rfl

/-- Witness for C10 at `switch_id = 5`. -/
theorem C10_navigate_default_witness :
    (5 : ℤ) ≠ 0 ∧ (5 : ℤ) ≠ 1 ∧ (5 : ℤ) ≠ 2 ∧
    (navigate_to_switch_events 5 = [Event.lcdWrite "I no no wanna :("]
    ∧ (navigate_to_switch_events 5).countP isMotionEvent = 0
    ∧ ∀ init : ℚ × ℚ, motorsAfter init (navigate_to_switch_events 5) = init) :=
  ⟨by decide, by decide, by decide,
    C10_navigate_default 5 (by decide) (by decide) (by decide)⟩
